import Mathlib

/-!
Shallow embedding of `texture.go` from the `glhf` repository (package `glhf`):
an OpenGL 2D-texture wrapper with bind/restore scoping, pixel upload/readback,
mipmap regeneration, sampling parameters and deferred deletion.

The native OpenGL driver and the `mainthread` deferred-execution facility are
collaborators (not part of the repository); they are modelled as explicit
state: a `GLState` holding the `TEXTURE_BINDING_2D` slot, per-object sampler
parameters, the queue of deletions enqueued to the context thread, and a trace
of the driver calls issued.  Go panics are modelled as `Option`/`Except`
failure results.
-/

set_option linter.unusedVariables false
set_option linter.unreachableTactic false
set_option linter.unusedTactic false

namespace glhf

/- OpenGL constants used by `texture.go`, with their standard numeric values
(from the `gl` package). -/
namespace gl

def TEXTURE_2D : Int := 3553
def TEXTURE_BINDING_2D : Nat := 32873
def TEXTURE_MIN_FILTER : Int := 10241
def TEXTURE_MAG_FILTER : Int := 10240
def TEXTURE_WRAP_S : Int := 10242
def TEXTURE_WRAP_T : Int := 10243
def TEXTURE_BORDER_COLOR : Int := 4100
def LINEAR : Int := 9729
def NEAREST : Int := 9728
def LINEAR_MIPMAP_LINEAR : Int := 9987
def LINEAR_MIPMAP_NEAREST : Int := 9985
def NEAREST_MIPMAP_NEAREST : Int := 9984
def NEAREST_MIPMAP_LINEAR : Int := 9986
def CLAMP_TO_EDGE : Int := 33071
def CLAMP_TO_BORDER : Int := 33069
def REPEAT : Int := 10497
def RGBA8 : Int := 32856
def RGBA : Int := 6408
def UNSIGNED_BYTE : Int := 5121

end gl

/-- `type Wrap int32` from texture.go (values are the GL constants). -/
abbrev Wrap := Int

def CLAMP_TO_EDGE : Wrap := gl.CLAMP_TO_EDGE

def CLAMP_TO_BORDER : Wrap := gl.CLAMP_TO_BORDER

def REPEAT : Wrap := gl.REPEAT

/-- One call issued to the native OpenGL driver (the observable effect of the
wrapper's pass-through calls). -/
inductive GLOp where
  | genTextures (obj : Nat)
  | bindTexture (obj : Nat)
  | texStorage2D (levels width height : Int)
  | texSubImage2D (level x y width height : Int) (pixels : List UInt8)
  | texImage2D (level width height : Int) (pixels : List UInt8)
  | generateMipmap
  | texBorderColor (r g b a : Int)
  | texParameteri (pname value : Int)
  | setFinalizer (obj : Nat)
  deriving DecidableEq, Repr

/-- The collaborator state: the driver's `TEXTURE_BINDING_2D` binding slot,
the next handle `GenTextures` hands out, per-object sampler parameters
(`texParam obj pname`), the queue of deletions enqueued onto the context
thread by `mainthread.CallNonBlock`, and the trace of issued driver calls. -/
structure GLState where
  binding2D : Nat
  nextId : Nat
  texParam : Nat → Int → Int
  pending : List Nat
  trace : List GLOp

/-- `gl.TexParameteri(gl.TEXTURE_2D, pname, value)`: sets a sampler parameter
of the texture currently occupying the binding slot. -/
def glTexParameteri (pname value : Int) (s : GLState) : GLState :=
  { s with
    texParam := fun o p => if o = s.binding2D ∧ p = pname then value else s.texParam o p
    trace := s.trace ++ [GLOp.texParameteri pname value] }

/-- Modelled from the spec: the `binder` type of this repository's
`binder.go`, which is not under `src/` (only its use in `texture.go` is).
Per the spec, `Begin()` "binds this resource's native handle into its
target's binding slot, first recording whatever handle was previously bound
there (so it can be restored)" and `End()` "restores the previously recorded
handle into the slot"; recorded handles are kept as a stack so that nested
Begin/End pairs restore correctly.  The `bindFunc` field of the source
(always `gl.BindTexture(gl.TEXTURE_2D, ·)` for textures) is inlined into
`binder.bind` / `binder.restore`. -/
structure binder where
  restoreLoc : Nat
  obj : Nat
  prev : List Nat

/-- Modelled from the spec: `binder.bind` records the handle currently in the
binding slot and binds `obj` there. -/
def binder.bind (b : binder) (s : GLState) : binder × GLState :=
  ({ b with prev := s.binding2D :: b.prev },
   { s with binding2D := b.obj, trace := s.trace ++ [GLOp.bindTexture b.obj] })

/-- Modelled from the spec: `binder.restore` rebinds the most recently
recorded handle.  Calling it without a matching `bind` is caller misuse
(undefined per the spec); it is modelled as a failure. -/
def binder.restore (b : binder) (s : GLState) : Option (binder × GLState) :=
  match b.prev with
  | [] => none
  | p :: rest =>
    some ({ b with prev := rest },
      { s with binding2D := p, trace := s.trace ++ [GLOp.bindTexture p] })

/-- `type Texture struct` from texture.go. -/
structure Texture where
  tex : binder
  width : Int
  height : Int
  mipmapLevels : Int
  smooth : Bool

/-- `func (t *Texture) Begin()`: binds the texture via its binder. -/
def Texture.Begin (t : Texture) (s : GLState) : Texture × GLState :=
  let p := t.tex.bind s
  ({ t with tex := p.1 }, p.2)

/-- `func (t *Texture) End()`: unbinds the texture, restoring the previous
binding via its binder. -/
def Texture.End (t : Texture) (s : GLState) : Option (Texture × GLState) :=
  (t.tex.restore s).map fun p => ({ t with tex := p.1 }, p.2)

/-- `func (t *Texture) SetSmooth(smooth bool)` from texture.go: stores the
flag and sets the minification and magnification filters of the bound
texture; the minification filter depends on whether the texture has mipmap
levels. -/
def Texture.SetSmooth (t : Texture) (smooth : Bool) (s : GLState) : Texture × GLState :=
  let t := { t with smooth := smooth }
  if smooth then
    let s :=
      if t.mipmapLevels > 0 then
        glTexParameteri gl.TEXTURE_MIN_FILTER gl.LINEAR_MIPMAP_LINEAR s
      else
        glTexParameteri gl.TEXTURE_MIN_FILTER gl.LINEAR s
    (t, glTexParameteri gl.TEXTURE_MAG_FILTER gl.LINEAR s)
  else
    let s :=
      if t.mipmapLevels > 0 then
        glTexParameteri gl.TEXTURE_MIN_FILTER gl.LINEAR_MIPMAP_NEAREST s
      else
        glTexParameteri gl.TEXTURE_MIN_FILTER gl.NEAREST s
    (t, glTexParameteri gl.TEXTURE_MAG_FILTER gl.NEAREST s)

/-- `func (t *Texture) SetWrap(wrap Wrap)` from texture.go. -/
def Texture.SetWrap (t : Texture) (wrap : Wrap) (s : GLState) : GLState :=
  let s := glTexParameteri gl.TEXTURE_WRAP_S wrap s
  glTexParameteri gl.TEXTURE_WRAP_T wrap s

/-- `func NewTexture(width, height, mipmapLevels int, smooth bool, pixels []uint8) *Texture`
from texture.go.  `gl.GenTextures` is modelled as handing out `s.nextId`;
`runtime.SetFinalizer(tex, (*Texture).delete)` is recorded in the trace; the
deferred `tex.End()` runs last, before the return. -/
def NewTexture (width height mipmapLevels : Int) (smooth : Bool) (pixels : List UInt8)
    (s : GLState) : Option (Texture × GLState) :=
  let tex : Texture :=
    { tex := { restoreLoc := gl.TEXTURE_BINDING_2D, obj := s.nextId, prev := [] }
      width := width
      height := height
      mipmapLevels := mipmapLevels
      smooth := false }
  let s : GLState :=
    { s with nextId := s.nextId + 1, trace := s.trace ++ [GLOp.genTextures tex.tex.obj] }
  let p := tex.Begin s
  let tex := p.1
  let s := p.2
  let s :=
    if mipmapLevels > 0 then
      let s := { s with trace := s.trace ++ [GLOp.texStorage2D mipmapLevels width height] }
      let s := { s with trace := s.trace ++ [GLOp.texSubImage2D 0 0 0 width height pixels] }
      { s with trace := s.trace ++ [GLOp.generateMipmap] }
    else
      { s with trace := s.trace ++ [GLOp.texImage2D 0 width height pixels] }
  let s := { s with trace := s.trace ++ [GLOp.texBorderColor 0 0 0 0] }
  let q := tex.SetSmooth smooth s
  let tex := q.1
  let s := q.2
  let s := tex.SetWrap CLAMP_TO_BORDER s
  let s := { s with trace := s.trace ++ [GLOp.setFinalizer tex.tex.obj] }
  tex.End s

/-- `func (t *Texture) delete()` from texture.go: enqueues (via
`mainthread.CallNonBlock`) the deletion of the native handle onto the context
thread, without blocking and without touching any other state. -/
def Texture.delete (t : Texture) (s : GLState) : GLState :=
  { s with pending := s.pending ++ [t.tex.obj] }

/-- `func (t *Texture) ID() uint32` from texture.go. -/
def Texture.ID (t : Texture) : Nat :=
  t.tex.obj

/-- `func (t *Texture) Width() int` from texture.go. -/
def Texture.Width (t : Texture) : Int :=
  t.width

/-- `func (t *Texture) Height() int` from texture.go. -/
def Texture.Height (t : Texture) : Int :=
  t.height

/-- `func (t *Texture) Smooth() bool` from texture.go. -/
def Texture.Smooth (t : Texture) : Bool :=
  t.smooth

/-- `func (t *Texture) SetPixels(x, y, w, h int, pixels []uint8)` from
texture.go: panics (modelled as `Except.error` with the panic message) when
the buffer length differs from `w*h*4`; otherwise uploads the sub-rectangle
into level 0 and, when the texture has mipmap levels, regenerates the mip
chain. -/
def Texture.SetPixels (t : Texture) (x y w h : Int) (pixels : List UInt8)
    (s : GLState) : Except String GLState :=
  if (pixels.length : Int) ≠ w * h * 4 then
    Except.error "set pixels: wrong number of pixels"
  else
    let s := { s with trace := s.trace ++ [GLOp.texSubImage2D 0 x y w h pixels] }
    if t.mipmapLevels > 0 then
      Except.ok { s with trace := s.trace ++ [GLOp.generateMipmap] }
    else
      Except.ok s

/-- Go slice expression `xs[lo:hi]` on a slice whose capacity equals its
length: panics (`none`) unless `0 ≤ lo ≤ hi ≤ len(xs)`. -/
def goSlice (xs : List UInt8) (lo hi : Int) : Option (List UInt8) :=
  if 0 ≤ lo ∧ lo ≤ hi ∧ hi ≤ (xs.length : Int) then
    some ((xs.drop lo.toNat).take (hi - lo).toNat)
  else
    none

/-- Go `copy(dst[s:...], src)` writing `m` bytes of `src` into `dst` starting
at offset `s` (as it happens in `Pixels`, where the destination is the slice
`subPixels[i*w*4 : (i+1)*w*4]` of `dst` and `m = min(len(dst slice), len(src))`). -/
def goCopy (dst : List UInt8) (s : Nat) (src : List UInt8) (m : Nat) : List UInt8 :=
  dst.take s ++ src.take m ++ dst.drop (s + m)

/-- The row loop of `Texture.Pixels`
(`for i := 0; i < h; i++ { row := pixels[...]; subRow := subPixels[...]; copy(subRow, row) }`):
`n` iterations remain, `i` is the loop counter, `subPixels` the buffer being
filled.  A slice panic aborts the call (`none`). -/
def pixelsLoop (width : Int) (pixels : List UInt8) (x y w : Int) :
    Nat → Nat → List UInt8 → Option (List UInt8)
  | 0, _, subPixels => some subPixels
  | n + 1, i, subPixels =>
    match goSlice pixels ((i + y) * width * 4 + x * 4) ((i + y) * width * 4 + (x + w) * 4) with
    | none => none
    | some row =>
      match goSlice subPixels (i * w * 4) ((i + 1) * w * 4) with
      | none => none
      | some subRow =>
        pixelsLoop width pixels x y w n (i + 1)
          (goCopy subPixels ((i : Int) * w * 4).toNat row (min subRow.length row.length))

/-- `func (t *Texture) Pixels(x, y, w, h int) []uint8` from texture.go.
The full-image readback `gl.GetTexImage` is the collaborator driver's effect:
it fills the `make([]uint8, t.width*t.height*4)` buffer with the bound
texture's level-0 image, passed here as `img`.  A negative `make` size or a
slice violation panics (`none`). -/
def Texture.Pixels (t : Texture) (img : List UInt8) (x y w h : Int) : Option (List UInt8) :=
  if t.width * t.height * 4 < 0 then none
  else if w * h * 4 < 0 then none
  else pixelsLoop t.width img x y w h.toNat 0 (List.replicate (w * h * 4).toNat 0)

/-- Row `i` of the requested sub-rectangle, as bytes of the full-image
readback `img`: bytes `[(y+i)*width*4 + x*4, (y+i)*width*4 + (x+w)*4)`. -/
def rowSeg (width x y w : Nat) (img : List UInt8) (i : Nat) : List UInt8 :=
  (img.drop ((y + i) * width * 4 + x * 4)).take (w * 4)

/-- Concatenation of the sub-rectangle rows `i, i+1, ..., i+n-1`. -/
def rowsConcat (width x y w : Nat) (img : List UInt8) : Nat → Nat → List UInt8
  | _, 0 => []
  | i, n + 1 => rowSeg width x y w img i ++ rowsConcat width x y w img (i + 1) n

/-- A fresh driver state (nothing bound, nothing enqueued, parameters
zeroed). -/
def initState : GLState :=
  { binding2D := 0
    nextId := 1
    texParam := fun _ _ => 0
    pending := []
    trace := [] }

/-- A 2×2 texture without mipmaps, handle 1. -/
def texA : Texture :=
  { tex := { restoreLoc := gl.TEXTURE_BINDING_2D, obj := 1, prev := [] }
    width := 2
    height := 2
    mipmapLevels := 0
    smooth := false }

/-- A 4×4 texture without mipmaps, handle 2. -/
def texB : Texture :=
  { tex := { restoreLoc := gl.TEXTURE_BINDING_2D, obj := 2, prev := [] }
    width := 4
    height := 4
    mipmapLevels := 0
    smooth := false }

/-- An 8×8 texture with 4 mipmap levels, handle 5. -/
def texC : Texture :=
  { tex := { restoreLoc := gl.TEXTURE_BINDING_2D, obj := 5, prev := [] }
    width := 8
    height := 8
    mipmapLevels := 4
    smooth := true }

/-- A driver state in which handle 5 occupies the binding slot. -/
def stateC : GLState :=
  { binding2D := 5
    nextId := 6
    texParam := fun _ _ => 0
    pending := []
    trace := [] }

/-- A driver state in which handle 1 (`texA`) occupies the binding slot. -/
def stateA : GLState :=
  { binding2D := 1
    nextId := 6
    texParam := fun _ _ => 0
    pending := []
    trace := [] }


/-!
Theorems settling the claims, with the supporting lemmas for the `Pixels`
row-copy loop.
-/

lemma goSlice_some {xs : List UInt8} {lo hi : Int} (h1 : 0 ≤ lo) (h2 : lo ≤ hi)
    (h3 : hi ≤ (xs.length : Int)) :
    goSlice xs lo hi = some ((xs.drop lo.toNat).take (hi - lo).toNat) := by
  unfold goSlice
  rw [if_pos ⟨h1, h2, h3⟩]

lemma goSlice_neg {xs : List UInt8} {lo hi : Int} (h1 : lo < 0) :
    goSlice xs lo hi = none := by
  unfold goSlice
  rw [if_neg]
  rintro ⟨h0, -, -⟩
  omega

lemma rowSeg_length {width x y w H : Nat} {img : List UInt8}
    (himg : img.length = width * H * 4) (hx : x + w ≤ width) {i : Nat}
    (hi : y + i + 1 ≤ H) :
    (rowSeg width x y w img i).length = w * 4 := by
  have key : (y + i) * width * 4 + x * 4 + w * 4 ≤ width * H * 4 := by
    nlinarith [Nat.mul_le_mul_right width hi]
  rw [rowSeg, List.length_take, List.length_drop, himg]
  omega

lemma rowsConcat_length {width x y w H : Nat} {img : List UInt8}
    (himg : img.length = width * H * 4) (hx : x + w ≤ width) :
    ∀ (n i : Nat), y + i + n ≤ H →
      (rowsConcat width x y w img i n).length = n * (w * 4) := by
  intro n
  induction n with
  | zero => intro i _; simp [rowsConcat]
  | succ k ih =>
    intro i hi
    rw [rowsConcat, List.length_append, rowSeg_length himg hx (by omega),
      ih (i + 1) (by omega)]
    ring

lemma rowsConcat_row {width x y w H : Nat} {img : List UInt8}
    (himg : img.length = width * H * 4) (hx : x + w ≤ width) :
    ∀ (n i j : Nat), j < n → y + i + n ≤ H →
      ((rowsConcat width x y w img i n).drop (j * (w * 4))).take (w * 4)
        = rowSeg width x y w img (i + j) := by
  intro n
  induction n with
  | zero => intro i j hj _; exact absurd hj (Nat.not_lt_zero j)
  | succ k ih =>
    intro i j hj hi
    cases j with
    | zero =>
      rw [rowsConcat, Nat.zero_mul, List.drop_zero,
        List.take_left' (rowSeg_length himg hx (by omega)), Nat.add_zero]
    | succ j' =>
      rw [rowsConcat, show (j' + 1) * (w * 4) = w * 4 + j' * (w * 4) by ring,
        List.drop_append_eq_append_drop,
        List.drop_eq_nil_of_le (by rw [rowSeg_length himg hx (by omega)]; omega),
        rowSeg_length himg hx (by omega), List.nil_append,
        show w * 4 + j' * (w * 4) - w * 4 = j' * (w * 4) by omega,
        ih (i + 1) j' (by omega) (by omega),
        show i + 1 + j' = i + (j' + 1) by omega]

lemma pixelsLoop_spec {W H X Y Wd hT : Nat} {img : List UInt8}
    (himg : img.length = W * H * 4) (hx : X + Wd ≤ W) (hy : Y + hT ≤ H) :
    ∀ (n i : Nat) (sub : List UInt8), i + n = hT →
      sub.length = Wd * hT * 4 →
      pixelsLoop (W : Int) img (X : Int) (Y : Int) (Wd : Int) n i sub
        = some (sub.take (i * Wd * 4) ++ rowsConcat W X Y Wd img i n) := by
  intro n
  induction n with
  | zero =>
    intro i sub hi hlen
    rw [pixelsLoop, rowsConcat, List.append_nil,
      List.take_of_length_le (by rw [hlen]; subst hi; nlinarith [Nat.le_refl (i * Wd * 4)])]
  | succ k ih =>
    intro i sub hi hlen
    have hiT : i + 1 ≤ hT := by omega
    have hyi : Y + i + 1 ≤ H := by omega
    -- bound for the full-image row slice
    have key : (Y + i) * W * 4 + X * 4 + Wd * 4 ≤ W * H * 4 := by
      nlinarith [Nat.mul_le_mul_right W hyi]
    -- the Int-level slice offsets
    have hlo : ((i : Int) + (Y : Int)) * (W : Int) * 4 + (X : Int) * 4
        = (((Y + i) * W * 4 + X * 4 : Nat) : Int) := by push_cast; ring
    have hhi : ((i : Int) + (Y : Int)) * (W : Int) * 4 + ((X : Int) + (Wd : Int)) * 4
        = (((Y + i) * W * 4 + X * 4 + Wd * 4 : Nat) : Int) := by push_cast; ring
    have hrow : goSlice img (((i : Int) + (Y : Int)) * (W : Int) * 4 + (X : Int) * 4)
        (((i : Int) + (Y : Int)) * (W : Int) * 4 + ((X : Int) + (Wd : Int)) * 4)
        = some (rowSeg W X Y Wd img i) := by
      rw [goSlice_some (by rw [hlo]; positivity)
        (by rw [hlo, hhi]; exact_mod_cast Nat.le_add_right _ _)
        (by rw [hhi, himg]; exact_mod_cast key),
        hlo, hhi, Int.toNat_natCast, Int.toNat_sub,
        show (Y + i) * W * 4 + X * 4 + Wd * 4 - ((Y + i) * W * 4 + X * 4) = Wd * 4
          from by omega, rowSeg]
    -- the sub-buffer slice
    have hsucc : (i + 1) * Wd * 4 = i * Wd * 4 + Wd * 4 := by ring
    have hsub_bound : (i + 1) * Wd * 4 ≤ sub.length := by
      rw [hlen]
      nlinarith [Nat.mul_le_mul_right (Wd * 4) hiT]
    have hlo2 : (i : Int) * (Wd : Int) * 4 = ((i * Wd * 4 : Nat) : Int) := by push_cast; ring
    have hhi2 : ((i : Int) + 1) * (Wd : Int) * 4 = (((i + 1) * Wd * 4 : Nat) : Int) := by
      push_cast; ring
    have hsubRow : goSlice sub ((i : Int) * (Wd : Int) * 4) (((i : Int) + 1) * (Wd : Int) * 4)
        = some ((sub.drop (i * Wd * 4)).take (Wd * 4)) := by
      rw [goSlice_some (by rw [hlo2]; positivity)
        (by rw [hlo2, hhi2]; exact_mod_cast (by omega : i * Wd * 4 ≤ (i + 1) * Wd * 4))
        (by rw [hhi2]; exact_mod_cast hsub_bound),
        hlo2, hhi2, Int.toNat_natCast, Int.toNat_sub,
        show (i + 1) * Wd * 4 - i * Wd * 4 = Wd * 4 from by omega]
    have hrowlen : (rowSeg W X Y Wd img i).length = Wd * 4 := rowSeg_length himg hx hyi
    have hsubRowlen : ((sub.drop (i * Wd * 4)).take (Wd * 4)).length = Wd * 4 := by
      rw [List.length_take, List.length_drop]
      omega
    -- one loop iteration
    simp only [pixelsLoop, hrow, hsubRow]
    rw [show min ((sub.drop (i * Wd * 4)).take (Wd * 4)).length (rowSeg W X Y Wd img i).length
        = Wd * 4 by rw [hrowlen, hsubRowlen]; omega]
    rw [show ((i : Int) * (Wd : Int) * 4).toNat = i * Wd * 4 by rw [hlo2, Int.toNat_natCast]]
    rw [goCopy, List.take_of_length_le (le_of_eq hrowlen)]
    have hnewlen : (sub.take (i * Wd * 4) ++ rowSeg W X Y Wd img i
        ++ sub.drop (i * Wd * 4 + Wd * 4)).length = Wd * hT * 4 := by
      rw [List.length_append, List.length_append, List.length_take, List.length_drop, hrowlen]
      omega
    rw [ih (i + 1) _ (by omega) hnewlen]
    congr 1
    rw [List.take_left' (by rw [List.length_append, List.length_take, hrowlen]; omega),
      rowsConcat, List.append_assoc]

/-- Claim C2: for every rectangle (x, y, w, h) fully inside
[0,width) × [0,height), `Pixels` reads back the entire image (the
width × height × 4-byte buffer `img`) and returns a fresh buffer of exactly
w*h*4 bytes whose row `i` equals bytes
[(y+i)*width*4 + x*4, (y+i)*width*4 + (x+w)*4) of the full-image readback. -/
theorem pixels_subrectangle_correct (t : Texture) (W H : Nat) (img : List UInt8)
    (x y w h : Nat)
    (htw : t.width = (W : Int)) (hth : t.height = (H : Int))
    (himg : img.length = W * H * 4)
    (hxw : x + w ≤ W) (hyh : y + h ≤ H) :
    ∃ res, t.Pixels img (x : Int) (y : Int) (w : Int) (h : Int) = some res ∧
      res.length = w * h * 4 ∧
      ∀ i : Nat, i < h →
        (res.drop (i * (w * 4))).take (w * 4)
          = (img.drop ((y + i) * W * 4 + x * 4)).take (w * 4) := by
  rw [Texture.Pixels, htw, hth,
    if_neg (not_lt.mpr (by positivity : (0 : Int) ≤ (W : Int) * (H : Int) * 4)),
    if_neg (not_lt.mpr (by positivity : (0 : Int) ≤ (w : Int) * (h : Int) * 4))]
  rw [show ((w : Int) * (h : Int) * 4).toNat = w * h * 4 by
      rw [show ((w : Int) * (h : Int) * 4) = ((w * h * 4 : Nat) : Int) by push_cast; ring,
        Int.toNat_natCast],
    Int.toNat_natCast]
  rw [pixelsLoop_spec himg hxw hyh h 0 _ (Nat.zero_add h) (by simp)]
  refine ⟨_, rfl, ?_, ?_⟩
  · rw [Nat.zero_mul, List.take_zero, List.nil_append,
      rowsConcat_length himg hxw h 0 (by omega)]
    ring
  · intro i hi
    rw [Nat.zero_mul, List.take_zero, List.nil_append,
      rowsConcat_row himg hxw h 0 i hi (by omega), Nat.zero_add, rowSeg]

/-- Witness for C2 at a concrete texture, image and rectangle. -/
theorem pixels_subrectangle_correct_witness :
    texA.width = ((2 : Nat) : Int) ∧
    ∃ res, Texture.Pixels texA ((List.range 16).map (fun n => UInt8.ofNat n))
        ((1 : Nat) : Int) ((1 : Nat) : Int) ((1 : Nat) : Int) ((1 : Nat) : Int) = some res ∧
      res.length = 1 * 1 * 4 ∧
      ∀ i : Nat, i < 1 →
        (res.drop (i * (1 * 4))).take (1 * 4)
          = (((List.range 16).map (fun n => UInt8.ofNat n)).drop ((1 + i) * 2 * 4 + 1 * 4)).take (1 * 4) :=
  ⟨rfl, pixels_subrectangle_correct texA 2 2 _ 1 1 1 1 rfl rfl (by decide) (by decide) (by decide)⟩

/-- Counterexample to claim C10: the rectangle x=2, y=0, w=3, h=1 is not
contained in the 4×4 texture `texB` (x+w = 5 > 4), yet `Pixels` does not
panic — the row-slice indices stay inside the full-image buffer, so the call
succeeds and silently returns wrapped row data. -/
theorem pixels_wraparound_counterexample :
    texB.width < 2 + 3
    ∧ (Texture.Pixels texB (List.replicate 64 0) 2 0 3 1).isSome = true := by
  constructor
  · decide
  · decide

/-- Claim C10 (amended): `Pixels` performs no validation of the requested
rectangle, but only calls whose computed row-slice indices leave the
full-image buffer panic; in particular every call with x < 0, y = 0 and
h > 0 panics at the first row slice. (Not every out-of-range rectangle
panics; see the counterexample.) -/
theorem pixels_no_validation (t : Texture) (img : List UInt8) (x w h : Int)
    (hx : x < 0) (hh : 0 < h) :
    t.Pixels img x 0 w h = none := by
  rw [Texture.Pixels]
  split
  · rfl
  · split
    · rfl
    · obtain ⟨k, hk⟩ : ∃ k, h.toNat = k + 1 := ⟨h.toNat - 1, by omega⟩
      rw [hk]
      simp only [pixelsLoop]
      rw [goSlice_neg (by push_cast; nlinarith [hx] : (((0 : Nat) : Int) + 0) * t.width * 4 + x * 4 < 0)]

/-- Witness for the amended C10 at a concrete out-of-range call. -/
theorem pixels_no_validation_witness :
    ((-1 : Int) < 0) ∧ (0 : Int) < 1
    ∧ Texture.Pixels texB (List.replicate 64 0) (-1) 0 1 1 = none :=
  ⟨by decide, by decide,
    pixels_no_validation texB (List.replicate 64 0) (-1) 1 1 (by decide) (by decide)⟩

/-- Claim C5: `SetPixels(x, y, w, h, pixels)` fails (panics) if and only if
the byte length of `pixels` differs from w*h*4; when the length matches it
proceeds to upload the sub-rectangle without raising this error. -/
theorem setPixels_size_check (t : Texture) (x y w h : Int) (pixels : List UInt8)
    (s : GLState) :
    ((∃ e, t.SetPixels x y w h pixels s = Except.error e)
      ↔ (pixels.length : Int) ≠ w * h * 4)
    ∧ ((pixels.length : Int) = w * h * 4 →
        ∃ s2, t.SetPixels x y w h pixels s = Except.ok s2 ∧
          GLOp.texSubImage2D 0 x y w h pixels ∈ s2.trace) := by
  constructor
  · rw [Texture.SetPixels]
    split
    · next hlen => exact ⟨fun _ => hlen, fun _ => ⟨_, rfl⟩⟩
    · next hlen =>
      split <;> simp_all
  · intro hlen
    rw [Texture.SetPixels, if_neg (by simpa using hlen)]
    split
    · exact ⟨_, rfl, by simp⟩
    · exact ⟨_, rfl, by simp⟩

/-- Witness for C5 at a concrete length-valid call. -/
theorem setPixels_size_check_witness :
    (((List.replicate 4 (0 : UInt8)).length : Int) = 1 * 1 * 4)
    ∧ ∃ s2, Texture.SetPixels texA 0 0 1 1 (List.replicate 4 0) initState = Except.ok s2 ∧
        GLOp.texSubImage2D 0 0 0 1 1 (List.replicate 4 0) ∈ s2.trace :=
  ⟨by decide,
    (setPixels_size_check texA 0 0 1 1 (List.replicate 4 0) initState).2 (by decide)⟩

/-- Counterexample to claim C6: the size-mismatch panic message is the fixed
string "set pixels: wrong number of pixels" — two calls with different
expected (64 vs 4) and actual (60 vs 0) byte counts produce the identical
message, and the message contains no digits at all, so it cannot name the
expected or actual byte count. -/
theorem setPixels_message_counterexample :
    Texture.SetPixels texB 0 0 4 4 (List.replicate 60 0) initState
      = Except.error "set pixels: wrong number of pixels"
    ∧ Texture.SetPixels texB 0 0 1 1 [] initState
      = Except.error "set pixels: wrong number of pixels"
    ∧ ("set pixels: wrong number of pixels".toList.all fun c => !c.isDigit) = true :=
  ⟨rfl, rfl, by decide⟩

/-- Claim C6 (amended): the size-mismatch failure (the only input-driven
failure path) raises the fixed message "set pixels: wrong number of pixels",
which names neither the expected nor the actual byte count. -/
theorem setPixels_message_fixed (t : Texture) (x y w h : Int) (pixels : List UInt8)
    (s : GLState) (hlen : (pixels.length : Int) ≠ w * h * 4) :
    t.SetPixels x y w h pixels s = Except.error "set pixels: wrong number of pixels" := by
  rw [Texture.SetPixels, if_pos hlen]

/-- Witness for the amended C6 at a concrete mismatched call. -/
theorem setPixels_message_fixed_witness :
    (((List.replicate 60 (0 : UInt8)).length : Int) ≠ 4 * 4 * 4)
    ∧ Texture.SetPixels texB 1 1 4 4 (List.replicate 60 0) initState
        = Except.error "set pixels: wrong number of pixels" :=
  ⟨by decide,
    setPixels_message_fixed texB 1 1 4 4 (List.replicate 60 0) initState (by decide)⟩

/-- Claim C3 (amended): with the resource bound, SetSmooth(true) sets the
magnification filter to LINEAR and the minification filter to
LINEAR_MIPMAP_LINEAR when mipmapLevels > 0 and LINEAR otherwise;
SetSmooth(false) sets the magnification filter to NEAREST and the
minification filter to LINEAR_MIPMAP_NEAREST (linear within the nearest mip
level) when mipmapLevels > 0 — not NEAREST_MIPMAP_NEAREST as claimed — and
NEAREST otherwise. -/
theorem setSmooth_sets_filters (t : Texture) (s : GLState)
    (hb : s.binding2D = t.tex.obj) :
    ((t.SetSmooth true s).2.texParam t.tex.obj gl.TEXTURE_MAG_FILTER = gl.LINEAR
      ∧ (t.SetSmooth true s).2.texParam t.tex.obj gl.TEXTURE_MIN_FILTER
          = (if t.mipmapLevels > 0 then gl.LINEAR_MIPMAP_LINEAR else gl.LINEAR))
    ∧ ((t.SetSmooth false s).2.texParam t.tex.obj gl.TEXTURE_MAG_FILTER = gl.NEAREST
      ∧ (t.SetSmooth false s).2.texParam t.tex.obj gl.TEXTURE_MIN_FILTER
          = (if t.mipmapLevels > 0 then gl.LINEAR_MIPMAP_NEAREST else gl.NEAREST)) := by
  by_cases hm : t.mipmapLevels > 0 <;>
    simp [Texture.SetSmooth, glTexParameteri, hm, hb,
      gl.TEXTURE_MIN_FILTER, gl.TEXTURE_MAG_FILTER]

/-- Witness for the amended C3 at a concrete bound texture. -/
theorem setSmooth_sets_filters_witness :
    stateC.binding2D = texC.tex.obj
    ∧ (Texture.SetSmooth texC true stateC).2.texParam texC.tex.obj gl.TEXTURE_MAG_FILTER
        = gl.LINEAR :=
  ⟨rfl, (setSmooth_sets_filters texC stateC rfl).1.1⟩

/-- Counterexample to claim C3: on the mipmapped texture `texC`,
SetSmooth(false) sets the minification filter to LINEAR_MIPMAP_NEAREST
(9985), not the claimed nearest-with-mipmap-nearest-step
(NEAREST_MIPMAP_NEAREST, 9984). -/
theorem setSmooth_pixely_counterexample :
    texC.mipmapLevels > 0
    ∧ (Texture.SetSmooth texC false stateC).2.texParam texC.tex.obj gl.TEXTURE_MIN_FILTER
        = gl.LINEAR_MIPMAP_NEAREST
    ∧ ¬ (Texture.SetSmooth texC false stateC).2.texParam texC.tex.obj gl.TEXTURE_MIN_FILTER
        = gl.NEAREST_MIPMAP_NEAREST := by
  refine ⟨by decide, by decide, by decide⟩

/-- Claim C4 (amended): `NewTexture` performs no validation of the initial
pixel buffer's length — construction always succeeds and uploads whatever
buffer was provided, for every width, height and buffer. -/
theorem newTexture_no_length_validation (w0 h0 m : Int) (sm : Bool) (px : List UInt8)
    (s : GLState) :
    ∃ t s1, NewTexture w0 h0 m sm px s = some (t, s1) ∧
      (if m > 0 then GLOp.texSubImage2D 0 0 0 w0 h0 px ∈ s1.trace
       else GLOp.texImage2D 0 w0 h0 px ∈ s1.trace) := by
  by_cases hm : m > 0 <;> cases sm <;>
    simp [NewTexture, Texture.Begin, binder.bind, Texture.SetSmooth, Texture.SetWrap,
      glTexParameteri, Texture.End, binder.restore, hm] <;>
    exact ⟨_, _, ⟨rfl, rfl⟩, by simp⟩

/-- Counterexample to claim C4: constructing a 4×4 texture with a 60-byte
initial buffer (instead of 64) does not fail — `NewTexture` proceeds. -/
theorem newTexture_size_mismatch_counterexample :
    (List.replicate 60 (0 : UInt8)).length ≠ 4 * 4 * 4
    ∧ (NewTexture 4 4 0 false (List.replicate 60 0) initState).isSome = true :=
  ⟨by decide, by decide⟩

/-- Claim C1: Begin() records the previously bound handle and binds this
texture's handle; End() restores the recorded handle, so after End() the
2D-texture binding slot holds exactly the handle bound immediately before
the matching Begin() — also when two textures' Begin/End pairs are properly
nested, and for the scoped Begin/deferred End pair inside `NewTexture`,
which restores the caller's binding. -/
theorem begin_end_restores_binding :
    (∀ (t : Texture) (s : GLState),
      ∃ p, Texture.End (Texture.Begin t s).1 (Texture.Begin t s).2 = some p
        ∧ p.2.binding2D = s.binding2D)
    ∧ (∀ (t1 t2 : Texture) (s : GLState),
        ∃ q r,
          Texture.End (Texture.Begin t2 (Texture.Begin t1 s).2).1
              (Texture.Begin t2 (Texture.Begin t1 s).2).2 = some q
          ∧ q.2.binding2D = (Texture.Begin t1 s).2.binding2D
          ∧ Texture.End (Texture.Begin t1 s).1 q.2 = some r
          ∧ r.2.binding2D = s.binding2D)
    ∧ (∀ (w0 h0 m : Int) (sm : Bool) (px : List UInt8) (s : GLState),
        ∃ u s1, NewTexture w0 h0 m sm px s = some (u, s1)
          ∧ s1.binding2D = s.binding2D) := by
  refine ⟨?_, ?_, ?_⟩
  · intro t s
    exact ⟨_, rfl, rfl⟩
  · intro t1 t2 s
    exact ⟨_, _, rfl, rfl, rfl, rfl⟩
  · intro w0 h0 m sm px s
    by_cases hm : m > 0 <;> cases sm <;>
      simp [NewTexture, Texture.Begin, binder.bind, Texture.SetSmooth, Texture.SetWrap,
        glTexParameteri, Texture.End, binder.restore, hm] <;>
      exact ⟨_, _, ⟨rfl, rfl⟩, rfl⟩

/-- Helper: a length-valid `SetPixels` call succeeds, appends its driver calls
to the trace, and those calls include a mip-chain regeneration exactly when
the texture has mipmap levels. -/
lemma setPixels_ok_trace (t : Texture) (x y w h : Int) (px : List UInt8) (s2 : GLState)
    (hlen : (px.length : Int) = w * h * 4) :
    ∃ s3 ops, t.SetPixels x y w h px s2 = Except.ok s3 ∧
      s3.trace = s2.trace ++ ops ∧ (GLOp.generateMipmap ∈ ops ↔ t.mipmapLevels > 0) := by
  rw [Texture.SetPixels, if_neg (by simp [hlen])]
  by_cases hm : t.mipmapLevels > 0
  · rw [if_pos hm]
    refine ⟨_, [GLOp.texSubImage2D 0 x y w h px, GLOp.generateMipmap], rfl, ?_, ?_⟩
    · simp
    · simp [hm]
  · rw [if_neg hm]
    refine ⟨_, [GLOp.texSubImage2D 0 x y w h px], rfl, rfl, ?_⟩
    simp [hm]

/-- Claim C7: for a texture constructed with mipmap level count m and any
length-valid SetPixels call, the driver calls emitted by SetPixels include a
full mip-chain regeneration (after the sub-rectangle upload) if and only if
m > 0. -/
theorem setPixels_mip_regen_iff (w0 h0 m : Int) (sm : Bool) (px0 : List UInt8)
    (s s2 : GLState) (x y w h : Int) (px : List UInt8)
    (hlen : (px.length : Int) = w * h * 4) :
    ∃ t s1, NewTexture w0 h0 m sm px0 s = some (t, s1) ∧
      ∃ s3 ops, t.SetPixels x y w h px s2 = Except.ok s3 ∧
        s3.trace = s2.trace ++ ops ∧
        (GLOp.generateMipmap ∈ ops ↔ m > 0) := by
  obtain ⟨t, s1, hnew, hmeq⟩ :
      ∃ t s1, NewTexture w0 h0 m sm px0 s = some (t, s1) ∧ t.mipmapLevels = m := by
    by_cases hm : m > 0 <;> cases sm <;>
      simp [NewTexture, Texture.Begin, binder.bind, Texture.SetSmooth, Texture.SetWrap,
        glTexParameteri, Texture.End, binder.restore, hm] <;>
      exact ⟨_, _, ⟨rfl, rfl⟩, rfl⟩
  refine ⟨t, s1, hnew, ?_⟩
  have hres := setPixels_ok_trace t x y w h px s2 hlen
  rwa [hmeq] at hres

/-- Witness for C7 at a concrete mipmapped texture and valid call. -/
theorem setPixels_mip_regen_iff_witness :
    (((List.replicate 4 (0 : UInt8)).length : Int) = 1 * 1 * 4)
    ∧ ∃ t s1, NewTexture 1 1 1 false (List.replicate 4 0) initState = some (t, s1) ∧
        ∃ s3 ops, Texture.SetPixels t 0 0 1 1 (List.replicate 4 0) initState = Except.ok s3 ∧
          s3.trace = initState.trace ++ ops ∧
          (GLOp.generateMipmap ∈ ops ↔ (1 : Int) > 0) :=
  ⟨by decide,
    setPixels_mip_regen_iff 1 1 1 false (List.replicate 4 0) initState initState
      0 0 1 1 (List.replicate 4 0) (by decide)⟩

/-- Claim C8: during construction with mipmapLevels > 0, the texture
allocates immutable fixed-level storage (`TexStorage2D`), uploads the
initial pixels into level 0 (`TexSubImage2D`) and generates the remaining
mip levels; with mipmapLevels == 0 it allocates a single mutable image level
(`TexImage2D`) and never generates mipmaps; in both cases the initial wrap
mode ends up fixed to clamp-to-border. -/
theorem newTexture_construction_effects (w0 h0 m : Int) (sm : Bool) (px : List UInt8)
    (s : GLState) :
    ∃ t s1, NewTexture w0 h0 m sm px s = some (t, s1) ∧
      (∃ ops, s1.trace = s.trace ++ ops ∧
        (if m > 0 then
          GLOp.texStorage2D m w0 h0 ∈ ops ∧ GLOp.texSubImage2D 0 0 0 w0 h0 px ∈ ops
            ∧ GLOp.generateMipmap ∈ ops
         else
          GLOp.texImage2D 0 w0 h0 px ∈ ops ∧ GLOp.generateMipmap ∉ ops))
      ∧ s1.texParam t.tex.obj gl.TEXTURE_WRAP_S = CLAMP_TO_BORDER
      ∧ s1.texParam t.tex.obj gl.TEXTURE_WRAP_T = CLAMP_TO_BORDER := by
  by_cases hm : m > 0 <;> cases sm <;>
    simp [NewTexture, Texture.Begin, binder.bind, Texture.SetSmooth, Texture.SetWrap,
      glTexParameteri, Texture.End, binder.restore, hm] <;>
    refine ⟨_, _, ⟨rfl, rfl⟩, ⟨_, rfl, ?_⟩, ?_, ?_⟩ <;>
    simp [hm, gl.TEXTURE_WRAP_S, gl.TEXTURE_WRAP_T, gl.TEXTURE_MIN_FILTER,
      gl.TEXTURE_MAG_FILTER]

/-- Claim C9: the finalizer `delete` enqueues exactly one deletion of the
texture's native handle onto the context thread, non-blockingly (no other
state is touched and the deletion is not executed inline), and construction
itself enqueues no deletion while registering `delete` as the finalizer —
so one finalizer invocation yields exactly one deletion enqueue. -/
theorem delete_enqueue_once :
    (∀ (t : Texture) (s : GLState),
      (t.delete s).pending = s.pending ++ [t.tex.obj]
      ∧ (t.delete s).binding2D = s.binding2D
      ∧ (t.delete s).trace = s.trace
      ∧ (t.delete s).texParam = s.texParam
      ∧ (t.delete s).nextId = s.nextId)
    ∧ (∀ (w0 h0 m : Int) (sm : Bool) (px : List UInt8) (s : GLState) (u : Texture)
        (s1 : GLState), NewTexture w0 h0 m sm px s = some (u, s1) →
        s1.pending = s.pending ∧ GLOp.setFinalizer u.tex.obj ∈ s1.trace) := by
  refine ⟨fun t s => ⟨rfl, rfl, rfl, rfl, rfl⟩, ?_⟩
  intro w0 h0 m sm px s u s1 h
  by_cases hm : m > 0 <;> cases sm
  all_goals (
    simp [NewTexture, Texture.Begin, binder.bind, Texture.SetSmooth, Texture.SetWrap,
      glTexParameteri, Texture.End, binder.restore, hm] at h;
    obtain ⟨hu, hs1⟩ := h;
    subst hu;
    subst hs1;
    exact ⟨rfl, by simp⟩)

/-- Witness for C9 at a concrete constructed texture. -/
theorem delete_enqueue_once_witness :
    ∃ u s1, NewTexture 1 1 0 false (List.replicate 4 0) initState = some (u, s1)
      ∧ s1.pending = initState.pending
      ∧ GLOp.setFinalizer u.tex.obj ∈ s1.trace
      ∧ (u.delete s1).pending = s1.pending ++ [u.tex.obj] := by
  have h1 : (NewTexture 1 1 0 false (List.replicate 4 0) initState).isSome = true := by decide
  obtain ⟨⟨u, s1⟩, heq⟩ := Option.isSome_iff_exists.mp h1
  obtain ⟨hp, hf⟩ := delete_enqueue_once.2 1 1 0 false (List.replicate 4 0) initState u s1 heq
  exact ⟨u, s1, heq, hp, hf, (delete_enqueue_once.1 u s1).1⟩

end glhf
